import Mathlib

/-!
Verification of the enterprise legal guardrails system: a risk analyzer
that scores user text against a weighted pattern rule set, a decision
policy mapping the resulting status and a strict flag to an execution
verdict, an environment sanitizer, an allowlist matcher, and a guarded
process launcher with audit logging.

The repository ships only the regression tests
(scripts/tests_check_enterprise_guardrails.py and
scripts/tests_guard_and_run.py); the implementation modules
check_enterprise_guardrails.py and guard_and_run.py are absent, so all
definitions below are modelled from the specification and constrained by
the observable behaviour the tests assert.
-/

namespace Guardrails

/-- Character-list prefix and substring helpers used for the string level
operations of the model (kept structural so concrete instances evaluate). -/
def containsSeq (needle : List Char) : List Char → Bool
  | [] => needle.isPrefixOf []
  | c :: t => needle.isPrefixOf (c :: t) || containsSeq needle t

/-- Case folding used to normalize analyzed text, character by character. -/
def normalize (s : String) : String := String.mk (s.data.map Char.toLower)

/-- The four risk classification levels. -/
inductive Status
  | PASS
  | WATCH
  | REVIEW
  | BLOCK
deriving DecidableEq, Repr

/-- Modelled from the spec (section 3, the implementation module
check_enterprise_guardrails.py is absent): one matched risk pattern with
its category, weight and diagnostic detail. -/
structure Finding where
  category : String
  weight : Nat
  detail : String
deriving DecidableEq, Repr

/-- A pair of review and block thresholds. -/
structure Thresholds where
  review : Nat
  block : Nat
deriving DecidableEq, Repr

/-- Modelled from the spec (section 3): the full output of risk analysis
for one invocation. `scope_applied` records whether rule evaluation
actually ran. -/
structure Report where
  score : Nat
  findings : List Finding
  status : Status
  thresholds : Thresholds
  scope_applied : Bool
deriving DecidableEq, Repr

/-- Number of findings, as exposed by the report dictionary. -/
def Report.findings_count (r : Report) : Nat := r.findings.length

/-- Modelled from the spec (section 3 and 4.1): if the supplied block
threshold does not exceed the review threshold, block is coerced to
review + 1 before scoring. -/
def effectiveThresholds (review block : Nat) : Thresholds :=
  if block ≤ review then ⟨review, review + 1⟩ else ⟨review, block⟩

/-- Modelled from the spec (section 4.1): status classification from the
score and the effective thresholds, first matching case wins. -/
def classify (score : Nat) (t : Thresholds) : Status :=
  if score = 0 then .PASS
  else if score < t.review then .WATCH
  else if score < t.block then .REVIEW
  else .BLOCK

/-- Modelled from the spec (section 2): one weighted detector of the
pattern rule set; the match predicate is substring containment of the
pattern in the normalized text. -/
structure Rule where
  category : String
  pattern : String
  weight : Nat
deriving DecidableEq, Repr

/-- A rule matches when its pattern occurs in the normalized text. -/
def ruleMatches (r : Rule) (normText : String) : Bool :=
  containsSeq r.pattern.data normText.data

/-- Modelled from the spec (section 4.1): evaluate every rule in order
against a normalized copy of the text; each matching rule contributes one
finding, count-once-per-rule. -/
def evalRules (rules : List Rule) (text : String) : List Finding :=
  let norm := normalize text
  rules.filterMap fun r =>
    if ruleMatches r norm then some ⟨r.category, r.weight, r.pattern⟩ else none

/-- The score is the sum of finding weights. -/
def scoreOf (fs : List Finding) : Nat := (fs.map Finding.weight).sum

/-- Modelled from the spec (section 8 scenario, the default rule table is
part of the absent implementation): a default pattern rule set whose
weights reproduce the documented scenario outcomes for the known risky
text (score between the default review threshold 5 and block threshold 9,
at least 4, below 9). -/
def DEFAULT_RULES : List Rule :=
  [ ⟨"defamation_risk", "scammer", 3⟩,
    ⟨"guarantee_claim", "guaranteed", 2⟩,
    ⟨"absolute_claim", "100%", 2⟩ ]

/-- Scope mode: analysis restricted to the target set (incl models the
include mode) or excluded from it (excl models the exclude mode). -/
inductive ScopeMode
  | incl
  | excl
deriving DecidableEq, Repr

/-- A scope policy: a mode together with a target set of app identifiers. -/
structure ScopeConfig where
  mode : ScopeMode
  targets : List String
deriving DecidableEq, Repr

/-- Modelled from the spec (section 4.1): whether analysis runs for this
app. With no scope configuration analysis always runs; include mode
requires membership in the target set, exclude mode requires absence. -/
def scopeAllows (app : String) (cfg : Option ScopeConfig) : Bool :=
  match cfg with
  | none => true
  | some c =>
    match c.mode with
    | .incl => c.targets.contains app
    | .excl => !(c.targets.contains app)

/-- The short-circuit report: PASS, score 0, no findings, scope not
applied, carrying the effective thresholds. -/
def passReport (t : Thresholds) : Report := ⟨0, [], .PASS, t, false⟩

/-- The report of a full rule evaluation over the text. -/
def analyzeFull (rules : List Rule) (text : String) (t : Thresholds) : Report :=
  let fs := evalRules rules text
  ⟨scoreOf fs, fs, classify (scoreOf fs) t, t, true⟩

/-- Modelled from the spec (section 4.1, the implementation function
analyze_text of check_enterprise_guardrails.py is absent): the risk
analyzer. Disabled analysis short-circuits to PASS before scope or rules;
a scope miss short-circuits to PASS; otherwise rules are evaluated and
the score classified against the effective thresholds. Threshold
overrides default to review 5 and block 9. -/
def analyze (rules : List Rule) (text app action : String)
    (cfg : Option ScopeConfig) (enabled : Bool)
    (reviewOverride blockOverride : Option Nat) : Report :=
  let _ := action
  let t := effectiveThresholds (reviewOverride.getD 5) (blockOverride.getD 9)
  if !enabled then passReport t
  else if !(scopeAllows app cfg) then passReport t
  else analyzeFull rules text t

end Guardrails

namespace Guardrails

/-- The execution verdict derived from a status and the strict flag. -/
structure ExecutionVerdict where
  allowed : Bool
  warn : Bool
  reason : String
deriving DecidableEq, Repr

/-- The fixed refusal reason. -/
def BLOCK_REASON : String := "Blocked by enterprise legal guardrails"

/-- The warning reason attached to a non-strict REVIEW. -/
def REVIEW_REASON : String := "Guardrail REVIEW"

/-- Modelled from the spec (section 4.2, the decision policy of the absent
guard_and_run.py): BLOCK always refuses; REVIEW refuses under strict with
the same refusal as BLOCK and otherwise allows with a warning; WATCH and
PASS allow without warning. -/
def decide (status : Status) (strict : Bool) : ExecutionVerdict :=
  match status with
  | .BLOCK => ⟨false, false, BLOCK_REASON⟩
  | .REVIEW => if strict then ⟨false, false, BLOCK_REASON⟩ else ⟨true, true, REVIEW_REASON⟩
  | .WATCH => ⟨true, false, ""⟩
  | .PASS => ⟨true, false, ""⟩

/-- Modelled from the spec (section 4.2): strict mode is sourced from the
explicit flag or from the environment alias; the resolved boolean is
strict when either source sets it. -/
def parseEnvFlag (s : String) : Bool :=
  let l := normalize s
  l == "1" || l == "true" || l == "yes" || l == "on"

/-- Resolve the strict flag from the explicit command line flag and the
optional environment alias value. -/
def resolveStrict (flag : Bool) (envVal : Option String) : Bool :=
  flag || (match envVal with | none => false | some s => parseEnvFlag s)

/-- Whether a variable name is kept by the sanitizer keep-list: exact
match against a keep name, or any keep prefix starts the name. -/
def keepVar (keepNames keepPrefixes : List String) (name : String) : Bool :=
  keepNames.contains name || keepPrefixes.any fun p => p.data.isPrefixOf name.data

/-- Modelled from the spec (section 4.3, the environment sanitizer of the
absent guard_and_run.py): disabled sanitization returns the source
environment unchanged; enabled sanitization keeps exactly the entries
whose name passes the keep-list. -/
def sanitize (sourceEnv : List (String × String)) (enabled : Bool)
    (keepNames keepPrefixes : List String) : List (String × String) :=
  if enabled then sourceEnv.filter (fun kv => keepVar keepNames keepPrefixes kv.1)
  else sourceEnv

/-- The tag marking a pattern allowlist entry. -/
def REGEX_MARKER : String := "regex:"

/-- Whether an allowlist entry is a tagged pattern entry. -/
def isPatternEntry (e : String) : Bool := REGEX_MARKER.data.isPrefixOf e.data

/-- The pattern text of a tagged entry, with the marker stripped. -/
def patternOf (e : String) : String := String.mk (e.data.drop REGEX_MARKER.length)

/-- Modelled from the spec (section 4.4): a literal entry matches by exact
equality with the resolved command name; a tagged pattern entry matches
per the regex semantics of the absent implementation, abstracted here as
the predicate rmatch applied to the stripped pattern and the name. -/
def entryMatches (rmatch : String → String → Bool) (cmd e : String) : Bool :=
  if isPatternEntry e then rmatch (patternOf e) cmd else e == cmd

/-- Modelled from the spec (section 4.4): the union of the explicit
allowlist entries and the entries sourced from the legacy environment
alias. -/
def allowlistEntries (explicitEntries aliasEntries : List String) : List String :=
  explicitEntries ++ aliasEntries

/-- Modelled from the spec (section 4.4, the allowlist matcher of the
absent guard_and_run.py): an empty entry set allows everything; otherwise
some entry must match the resolved command name. -/
def is_allowed (rmatch : String → String → Bool) (cmd : String)
    (entries : List String) : Bool :=
  entries.isEmpty || entries.any (entryMatches rmatch cmd)

end Guardrails

namespace Guardrails

/-- Whether command resolution on the search path succeeded. -/
inductive Resolution
  | notFound
  | resolved (name : String)
deriving DecidableEq, Repr

/-- Behaviour of the launched child: ran to completion with an exit code,
or exceeded the command timeout. -/
inductive ChildResult
  | completed (exitCode : Nat)
  | timedOut
deriving DecidableEq, Repr

/-- The observable outcome of one guarded invocation. -/
structure Outcome where
  exitCode : Nat
  commandRan : Bool
  dryRun : Bool
  timedOut : Bool
  message : String
deriving DecidableEq, Repr

/-- Modelled from the spec (sections 4.5 and 7, the launcher of the absent
guard_and_run.py): a refused verdict exits 2 without launching; an
unresolvable command exits 1; an allowlist rejection exits 1 with the
violation message; dry run performs the checks but never launches and
reports success; otherwise the child runs and its exit code is propagated
verbatim, with a timeout reported as exit 1. -/
def run (verdict : ExecutionVerdict) (res : Resolution)
    (rmatch : String → String → Bool) (entries : List String)
    (dryRun : Bool) (child : ChildResult) : Outcome :=
  if !verdict.allowed then
    ⟨2, false, dryRun, false, verdict.reason⟩
  else
    match res with
    | .notFound => ⟨1, false, dryRun, false, "Command not found"⟩
    | .resolved name =>
      if !(is_allowed rmatch name entries) then
        ⟨1, false, dryRun, false, "Command " ++ name ++ " is not in the allowlist"⟩
      else if dryRun then
        ⟨0, false, true, false, ""⟩
      else
        match child with
        | .completed c => ⟨c, true, false, false, ""⟩
        | .timedOut => ⟨1, true, false, true, "Command timed out"⟩

/-- Modelled from the spec (section 3): the redacted audit record, one per
invocation; carries the text byte length, never the text. -/
structure AuditRecord where
  status : Status
  score : Nat
  text_len : Nat
  app : String
  action : String
  command_ran : Bool
  dry_run : Bool
  timed_out : Bool
deriving DecidableEq, Repr

/-- The single audit record derived from one invocation. -/
def auditOf (report : Report) (text app action : String) (o : Outcome) : AuditRecord :=
  ⟨report.status, report.score, text.utf8ByteSize, app, action,
   o.commandRan, o.dryRun, o.timedOut⟩

/-- Modelled from the spec (sections 4.5 and 4.6): the guarded pipeline
from a report and strict flag to an outcome plus the list of emitted
audit records (always exactly one). -/
def guardPipeline (report : Report) (strict : Bool) (res : Resolution)
    (rmatch : String → String → Bool) (entries : List String)
    (dryRun : Bool) (child : ChildResult)
    (text app action : String) : Outcome × List AuditRecord :=
  let o := run (decide report.status strict) res rmatch entries dryRun child
  (o, [auditOf report text app action o])

/-- Modelled from the spec (sections 4.3, 4.5 and 4.6): one full guarded
invocation. The child environment is derived through the sanitizer, the
guarded launch produces the outcome, and exactly one audit record is
emitted. In dry run mode only the final process start is skipped: the
sanitization and the resolution and allowlist checks are performed
exactly as in a real launch. -/
def guardInvocation (report : Report) (strict : Bool) (res : Resolution)
    (rmatch : String → String → Bool) (entries : List String)
    (sanEnabled : Bool) (srcEnv : List (String × String))
    (keepNames keepPrefixes : List String) (dryRun : Bool) (child : ChildResult)
    (text app action : String) :
    Outcome × List (String × String) × List AuditRecord :=
  let targetEnv := sanitize srcEnv sanEnabled keepNames keepPrefixes
  let o := run (decide report.status strict) res rmatch entries dryRun child
  (o, targetEnv, [auditOf report text app action o])

/-- The classification contract of one report: the status is the
documented piecewise function of score and effective thresholds, score 0
holds exactly when the status is PASS, and a PASS report has no findings. -/
def classifiedOK (r : Report) : Prop :=
  r.status = classify r.score r.thresholds ∧
  (r.score = 0 ↔ r.status = .PASS) ∧
  (r.status = .PASS → r.findings = []) ∧
  (0 < r.score → r.score < r.thresholds.review → r.status = .WATCH) ∧
  (0 < r.score → r.thresholds.review ≤ r.score → r.score < r.thresholds.block →
    r.status = .REVIEW) ∧
  (r.thresholds.block ≤ r.score → r.status = .BLOCK)

end Guardrails

namespace Guardrails

/-- The effective thresholds keep the review value and always satisfy the
block-exceeds-review invariant. -/
theorem effectiveThresholds_spec (a b : Nat) :
    (effectiveThresholds a b).review = a ∧ a < (effectiveThresholds a b).block := by
  unfold effectiveThresholds
  split_ifs with h
  · exact ⟨rfl, Nat.lt_succ_self a⟩
  · exact ⟨rfl, by show a < b; omega⟩

/-- Every finding produced by the default rule set has positive weight. -/
theorem evalRules_weight_pos (text : String) :
    ∀ f ∈ evalRules DEFAULT_RULES text, 0 < f.weight := by
  intro f hf
  unfold evalRules at hf
  rw [List.mem_filterMap] at hf
  obtain ⟨r, hr, hm⟩ := hf
  split at hm
  · cases hm
    simp only [DEFAULT_RULES, List.mem_cons, List.not_mem_nil, or_false] at hr
    rcases hr with h | h | h <;> subst h <;> decide
  · cases hm

/-- A finding list of positive weights with zero total is empty. -/
theorem scoreOf_eq_zero (fs : List Finding) (hw : ∀ f ∈ fs, 0 < f.weight)
    (h : scoreOf fs = 0) : fs = [] := by
  cases fs with
  | nil => rfl
  | cons a l =>
    exfalso
    have ha := hw a (List.mem_cons_self a l)
    simp only [scoreOf, List.map_cons, List.sum_cons] at h
    omega

/-- Case analysis of the status classification against thresholds whose
block value is positive. -/
theorem classify_cases (s : Nat) (t : Thresholds) (hrb : t.review < t.block) :
    (classify s t = .PASS ↔ s = 0) ∧
    (0 < s → s < t.review → classify s t = .WATCH) ∧
    (0 < s → t.review ≤ s → s < t.block → classify s t = .REVIEW) ∧
    (t.block ≤ s → classify s t = .BLOCK) := by
  unfold classify
  refine ⟨?_, ?_, ?_, ?_⟩
  · split_ifs with h1 h2 h3 <;> simp [h1]
  · intro hs hr
    split_ifs with h1
    · exact absurd h1 (by omega)
    · rfl
  · intro hs hr hb2
    split_ifs with h1 h2
    · exact absurd h1 (by omega)
    · exact absurd h2 (by omega)
    · rfl
  · intro hbs
    split_ifs with h1 h2 h3
    · exact absurd h1 (by omega)
    · exact absurd h2 (by omega)
    · exact absurd h3 (by omega)
    · rfl

end Guardrails

namespace Guardrails

/-- The report returned by the analyzer always carries the effective
thresholds computed from the overrides. -/
theorem analyze_thresholds (rules : List Rule) (text app action : String)
    (cfg : Option ScopeConfig) (enabled : Bool) (rO bO : Option Nat) :
    (analyze rules text app action cfg enabled rO bO).thresholds
      = effectiveThresholds (rO.getD 5) (bO.getD 9) := by
  unfold analyze
  split_ifs <;> rfl

/-- C1: decide refuses execution on BLOCK regardless of strict (allowed
false, warn false, the fixed blocked reason, exit code 2 and no launch in
the launcher); on REVIEW it refuses exactly when strict is set and
otherwise allows with warn true and the review reason; on WATCH and PASS
it allows without warning. -/
theorem c1_decision_policy (strict : Bool) (res : Resolution)
    (rmatch : String → String → Bool) (entries : List String)
    (dr : Bool) (child : ChildResult) :
    Guardrails.decide .BLOCK strict = ⟨false, false, "Blocked by enterprise legal guardrails"⟩ ∧
    (run (Guardrails.decide .BLOCK strict) res rmatch entries dr child).exitCode = 2 ∧
    (run (Guardrails.decide .BLOCK strict) res rmatch entries dr child).commandRan = false ∧
    (Guardrails.decide .REVIEW strict).allowed = !strict ∧
    (run (Guardrails.decide .REVIEW true) res rmatch entries dr child).exitCode = 2 ∧
    (run (Guardrails.decide .REVIEW true) res rmatch entries dr child).commandRan = false ∧
    Guardrails.decide .REVIEW false = ⟨true, true, "Guardrail REVIEW"⟩ ∧
    (Guardrails.decide .WATCH strict).allowed = true ∧
    (Guardrails.decide .WATCH strict).warn = false ∧
    (Guardrails.decide .PASS strict).allowed = true ∧
    (Guardrails.decide .PASS strict).warn = false := by
  cases strict <;>
    simp [Guardrails.decide, run, BLOCK_REASON, REVIEW_REASON]

/-- C2: whenever the supplied block threshold does not exceed the supplied
review threshold, the effective block threshold equals review + 1, and the
report returned by analyze always carries the effective thresholds rather
than the raw overrides. -/
theorem c2_threshold_coercion (review block : Nat) (h : block ≤ review)
    (text app action : String) (cfg : Option ScopeConfig) (enabled : Bool)
    (rawR rawB : Nat) :
    (effectiveThresholds review block).block = review + 1 ∧
    (analyze DEFAULT_RULES text app action cfg enabled (some rawR) (some rawB)).thresholds
      = effectiveThresholds rawR rawB := by
  constructor
  · unfold effectiveThresholds
    rw [if_pos h]
  · exact analyze_thresholds DEFAULT_RULES text app action cfg enabled (some rawR) (some rawB)

/-- Witness for C2 at the threshold pair of the regression tests. -/
theorem c2_threshold_coercion_witness :
    (effectiveThresholds 9 9).block = 9 + 1 ∧
    (analyze DEFAULT_RULES "hello" "website" "post" none true (some 2) (some 4)).thresholds
      = effectiveThresholds 2 4 :=
  c2_threshold_coercion 9 9 (by decide) "hello" "website" "post" none true 2 4

/-- C4: with enabled false the analyzer returns the PASS report with score
0 and no findings for every text, app, action, scope configuration and
threshold override, independently of scope and rules. -/
theorem c4_kill_switch (text app action : String) (cfg : Option ScopeConfig)
    (rO bO : Option Nat) :
    (analyze DEFAULT_RULES text app action cfg false rO bO).status = .PASS ∧
    (analyze DEFAULT_RULES text app action cfg false rO bO).score = 0 ∧
    (analyze DEFAULT_RULES text app action cfg false rO bO).findings = [] ∧
    analyze DEFAULT_RULES text app action cfg false rO bO
      = passReport (effectiveThresholds (rO.getD 5) (bO.getD 9)) :=
  ⟨rfl, rfl, rfl, rfl⟩

end Guardrails

namespace Guardrails

/-- The PASS short-circuit report satisfies the classification contract
whenever its thresholds satisfy the block-exceeds-review invariant. -/
theorem passReport_classified (t : Thresholds) (hrb : t.review < t.block) :
    classifiedOK (passReport t) := by
  unfold classifiedOK passReport
  dsimp only
  refine ⟨by simp [classify], by simp, fun _ => rfl, ?_, ?_, ?_⟩
  · intro h
    exact absurd h (by omega)
  · intro h
    exact absurd h (by omega)
  · intro h
    exact absurd h (by omega)

/-- A full rule evaluation satisfies the classification contract whenever
the thresholds satisfy the invariant and every produced finding has
positive weight. -/
theorem analyzeFull_classified (rules : List Rule) (text : String) (t : Thresholds)
    (hrb : t.review < t.block) (hw : ∀ f ∈ evalRules rules text, 0 < f.weight) :
    classifiedOK (analyzeFull rules text t) := by
  unfold classifiedOK analyzeFull
  dsimp only
  have hc := classify_cases (scoreOf (evalRules rules text)) t hrb
  refine ⟨rfl, hc.1.symm, ?_, hc.2.1, hc.2.2.1, hc.2.2.2⟩
  intro hp
  exact scoreOf_eq_zero _ hw (hc.1.mp hp)

/-- The effective thresholds always satisfy the invariant. -/
theorem effectiveThresholds_invariant (a b : Nat) :
    (effectiveThresholds a b).review < (effectiveThresholds a b).block := by
  have h := effectiveThresholds_spec a b
  rw [h.1]
  exact h.2

/-- A scope miss short-circuits analysis to the PASS report. -/
theorem analyze_scope_miss (rules : List Rule) (text app action : String)
    (cfg : Option ScopeConfig) (rO bO : Option Nat)
    (h : scopeAllows app cfg = false) :
    analyze rules text app action cfg true rO bO
      = passReport (effectiveThresholds (rO.getD 5) (bO.getD 9)) := by
  unfold analyze
  simp [h]

/-- C3: every report of the analyzer satisfies the classification
contract: its status is the documented piecewise function of score and
effective thresholds (score 0 gives PASS, positive score below review
gives WATCH, review up to below block gives REVIEW, block and above gives
BLOCK), score 0 holds exactly when the status is PASS, and a PASS report
has no findings. -/
theorem c3_status_classification (text app action : String) (cfg : Option ScopeConfig)
    (enabled : Bool) (rO bO : Option Nat) :
    classifiedOK (analyze DEFAULT_RULES text app action cfg enabled rO bO) := by
  have hrb := effectiveThresholds_invariant (rO.getD 5) (bO.getD 9)
  unfold analyze
  dsimp only
  split_ifs with h1 h2
  · exact passReport_classified _ hrb
  · exact passReport_classified _ hrb
  · exact analyzeFull_classified _ _ _ hrb (evalRules_weight_pos text)

/-- Witness for C3 at the empty text: score 0, status PASS, no findings. -/
theorem c3_status_classification_witness :
    (analyze DEFAULT_RULES "" "website" "post" none true none none).findings = [] ∧
    (analyze DEFAULT_RULES "" "website" "post" none true none none).status = .PASS := by
  have h := c3_status_classification "" "website" "post" none true none none
  have hp : (analyze DEFAULT_RULES "" "website" "post" none true none none).status = .PASS :=
    h.2.1.mp (by decide)
  exact ⟨h.2.2.1 hp, hp⟩

/-- C5: scope exclude with the app in the target set, and scope include
with the app absent, both short-circuit to a PASS report with score 0 and
no findings; with no scope configuration supplied the analyzer always
performs the full rule evaluation. -/
theorem c5_scope_filter (text app action : String) (rO bO : Option Nat)
    (targets : List String) :
    (targets.contains app = true →
      ((analyze DEFAULT_RULES text app action (some ⟨.excl, targets⟩) true rO bO).status = .PASS ∧
       (analyze DEFAULT_RULES text app action (some ⟨.excl, targets⟩) true rO bO).score = 0 ∧
       (analyze DEFAULT_RULES text app action (some ⟨.excl, targets⟩) true rO bO).findings_count = 0)) ∧
    (targets.contains app = false →
      ((analyze DEFAULT_RULES text app action (some ⟨.incl, targets⟩) true rO bO).status = .PASS ∧
       (analyze DEFAULT_RULES text app action (some ⟨.incl, targets⟩) true rO bO).score = 0 ∧
       (analyze DEFAULT_RULES text app action (some ⟨.incl, targets⟩) true rO bO).findings_count = 0)) ∧
    analyze DEFAULT_RULES text app action none true rO bO
      = analyzeFull DEFAULT_RULES text (effectiveThresholds (rO.getD 5) (bO.getD 9)) := by
  refine ⟨?_, ?_, rfl⟩
  · intro h
    rw [analyze_scope_miss DEFAULT_RULES text app action _ rO bO
      (by simp only [scopeAllows]; rw [h]; rfl)]
    exact ⟨rfl, rfl, rfl⟩
  · intro h
    rw [analyze_scope_miss DEFAULT_RULES text app action _ rO bO
      (by simp only [scopeAllows]; exact h)]
    exact ⟨rfl, rfl, rfl⟩

/-- Witness for C5 at the target sets of the regression tests. -/
theorem c5_scope_filter_witness :
    (analyze DEFAULT_RULES "John is a scammer and this is a guaranteed 100% win." "whatsapp" "post"
        (some ⟨.excl, ["whatsapp", "babylon"]⟩) true none none).status = .PASS ∧
    (analyze DEFAULT_RULES "John is a scammer and this is a guaranteed 100% win." "website" "post"
        (some ⟨.incl, ["whatsapp", "babylon"]⟩) true none none).findings_count = 0 := by
  have h1 := c5_scope_filter "John is a scammer and this is a guaranteed 100% win."
    "whatsapp" "post" none none ["whatsapp", "babylon"]
  have h2 := c5_scope_filter "John is a scammer and this is a guaranteed 100% win."
    "website" "post" none none ["whatsapp", "babylon"]
  exact ⟨(h1.1 (by decide)).1, (h2.2.1 (by decide)).2.2⟩

end Guardrails

namespace Guardrails

/-- C6: an empty configured entry set (explicit entries unioned with the
legacy alias entries) allows every resolved command; a non-empty entry set
in which no entry matches the command rejects it: is_allowed is false and
the launcher exits 1 with the allowlist violation message without running
the command. -/
theorem c6_allowlist (rmatch : String → String → Bool) (cmd : String)
    (explicitEntries aliasEntries : List String) (v : ExecutionVerdict)
    (hv : v.allowed = true) (dr : Bool) (child : ChildResult) :
    (allowlistEntries explicitEntries aliasEntries = [] →
      is_allowed rmatch cmd (allowlistEntries explicitEntries aliasEntries) = true) ∧
    (allowlistEntries explicitEntries aliasEntries ≠ [] →
      (∀ e ∈ allowlistEntries explicitEntries aliasEntries,
        entryMatches rmatch cmd e = false) →
      (is_allowed rmatch cmd (allowlistEntries explicitEntries aliasEntries) = false ∧
       run v (.resolved cmd) rmatch (allowlistEntries explicitEntries aliasEntries) dr child
         = ⟨1, false, dr, false, "Command " ++ cmd ++ " is not in the allowlist"⟩)) := by
  constructor
  · intro he
    rw [he]
    rfl
  · intro hne hnm
    have hfalse : is_allowed rmatch cmd (allowlistEntries explicitEntries aliasEntries)
        = false := by
      unfold is_allowed
      cases hl : allowlistEntries explicitEntries aliasEntries with
      | nil => exact absurd hl hne
      | cons a l =>
        rw [hl] at hnm
        simp only [List.isEmpty_cons, Bool.false_or]
        rw [List.any_eq_false]
        intro x hx
        rw [hnm x hx]
        exact Bool.false_ne_true
    constructor
    · exact hfalse
    · simp [run, hv, hfalse]

/-- Witness for C6: the allowlist of the regression tests rejects cat. -/
theorem c6_allowlist_witness :
    is_allowed (fun p s => p == s) "cat" (allowlistEntries ["python3"] []) = false ∧
    run ⟨true, false, ""⟩ (.resolved "cat") (fun p s => p == s)
        (allowlistEntries ["python3"] []) false (.completed 0)
      = ⟨1, false, false, false, "Command " ++ "cat" ++ " is not in the allowlist"⟩ :=
  (c6_allowlist (fun p s => p == s) "cat" ["python3"] [] ⟨true, false, ""⟩ rfl
    false (.completed 0)).2 (by decide) (by decide)

/-- C7: with sanitization enabled the child environment holds exactly the
source entries whose name is a keep name or starts with a keep marker;
every other source entry is absent; with sanitization disabled the source
environment is returned unchanged. -/
theorem c7_sanitize (src : List (String × String)) (keepNames keepPrefixes : List String) :
    (∀ kv : String × String,
      kv ∈ sanitize src true keepNames keepPrefixes ↔
        kv ∈ src ∧ keepVar keepNames keepPrefixes kv.1 = true) ∧
    sanitize src false keepNames keepPrefixes = src := by
  constructor
  · intro kv
    simp [sanitize, List.mem_filter]
  · rfl

/-- Witness for C7 at the environment of the regression tests. -/
theorem c7_sanitize_witness :
    ("KEEP_ME", "1") ∈ sanitize [("KEEP_ME", "1"), ("SHARED_TOKEN", "2"), ("DROP_ME", "3")]
        true ["KEEP_ME"] ["SHARED_"] ∧
    ("SHARED_TOKEN", "2") ∈ sanitize [("KEEP_ME", "1"), ("SHARED_TOKEN", "2"), ("DROP_ME", "3")]
        true ["KEEP_ME"] ["SHARED_"] ∧
    ("DROP_ME", "3") ∉ sanitize [("KEEP_ME", "1"), ("SHARED_TOKEN", "2"), ("DROP_ME", "3")]
        true ["KEEP_ME"] ["SHARED_"] := by
  have h := c7_sanitize [("KEEP_ME", "1"), ("SHARED_TOKEN", "2"), ("DROP_ME", "3")]
    ["KEEP_ME"] ["SHARED_"]
  refine ⟨(h.1 _).mpr ⟨by decide, by decide⟩, (h.1 _).mpr ⟨by decide, by decide⟩, fun hm => ?_⟩
  exact absurd ((h.1 _).mp hm).2 (by decide)

/-- In dry run mode under an allowed verdict the command never runs, the
outcome is flagged as a dry run, and when the command resolved and passed
the allowlist the exit code is 0. -/
theorem run_dry (v : ExecutionVerdict) (res : Resolution)
    (rmatch : String → String → Bool) (entries : List String)
    (child : ChildResult) (hv : v.allowed = true) :
    (run v res rmatch entries true child).commandRan = false ∧
    (run v res rmatch entries true child).dryRun = true ∧
    (∀ name, res = .resolved name → is_allowed rmatch name entries = true →
      (run v res rmatch entries true child).exitCode = 0) := by
  cases res with
  | notFound =>
    refine ⟨?_, ?_, fun _ h _ => nomatch h⟩ <;> simp [run, hv]
  | resolved name =>
    cases ha : is_allowed rmatch name entries with
    | false =>
      refine ⟨?_, ?_, ?_⟩
      · simp [run, hv, ha]
      · simp [run, hv, ha]
      · intro n hn hall
        cases hn
        rw [ha] at hall
        exact Bool.noConfusion hall
    | true =>
      refine ⟨?_, ?_, ?_⟩
      · simp [run, hv, ha]
      · simp [run, hv, ha]
      · intro n hn hall
        cases hn
        simp [run, hv, ha]

/-- C8 counterexample: a dry-run invocation whose verdict allows execution
but whose resolved command misses a non-empty allowlist exits 1, not
success. The allowlist check still runs in dry run mode (spec section
4.5) and its rejection is an AllowlistViolation with exit code 1,
unconditionally and never silently ignored (spec sections 4.4 and 7,
with exit 0 reserved for a dry run that completed successfully in
section 6). This refutes the claim that every allowed dry-run invocation
exits with success. -/
theorem c8_counterexample :
    (⟨true, false, ""⟩ : ExecutionVerdict).allowed = true ∧
    (run ⟨true, false, ""⟩ (.resolved "cat") (fun p s => p == s) ["python3"] true
      (.completed 0)).dryRun = true ∧
    (run ⟨true, false, ""⟩ (.resolved "cat") (fun p s => p == s) ["python3"] true
      (.completed 0)).commandRan = false ∧
    (run ⟨true, false, ""⟩ (.resolved "cat") (fun p s => p == s) ["python3"] true
      (.completed 0)).exitCode ≠ 0 := by
  decide

/-- C8 amended: in every dry-run invocation whose verdict allows
execution the resolution, allowlist and sanitization checks still run —
an unresolvable command and an allowlist miss surface with exit 1 exactly
as in a real launch, and the sanitized child environment equals the one
of a real launch — the wrapped command is never launched, exactly one
audit record is emitted carrying command_ran false and dry_run true, and
when the resolution and allowlist checks pass the process exits with
success. -/
theorem c8_dry_run (report : Report) (strict : Bool) (res : Resolution)
    (rmatch : String → String → Bool) (entries : List String)
    (sanEnabled : Bool) (srcEnv : List (String × String))
    (keepNames keepPrefixes : List String) (child : ChildResult)
    (text app action : String) (o : Outcome)
    (hv : (Guardrails.decide report.status strict).allowed = true)
    (ho : o = run (Guardrails.decide report.status strict) res rmatch entries true child) :
    o.commandRan = false ∧ o.dryRun = true ∧
    guardInvocation report strict res rmatch entries sanEnabled srcEnv keepNames keepPrefixes
        true child text app action
      = (o, sanitize srcEnv sanEnabled keepNames keepPrefixes,
         [auditOf report text app action o]) ∧
    (guardInvocation report strict res rmatch entries sanEnabled srcEnv keepNames keepPrefixes
        true child text app action).2.1
      = (guardInvocation report strict res rmatch entries sanEnabled srcEnv keepNames keepPrefixes
        false child text app action).2.1 ∧
    (auditOf report text app action o).command_ran = false ∧
    (auditOf report text app action o).dry_run = true ∧
    (res = .notFound → o.exitCode = 1 ∧ o.message = "Command not found") ∧
    (∀ name, res = .resolved name → is_allowed rmatch name entries = false →
      o.exitCode = 1 ∧ o.commandRan = false) ∧
    (∀ name, res = .resolved name → is_allowed rmatch name entries = true →
      o.exitCode = 0) := by
  subst ho
  have h := run_dry (Guardrails.decide report.status strict) res rmatch entries child hv
  refine ⟨h.1, h.2.1, rfl, rfl, h.1, h.2.1, ?_, ?_, h.2.2⟩
  · intro hres
    subst hres
    constructor <;> simp [run, hv]
  · intro name hres hmiss
    subst hres
    refine ⟨?_, h.1⟩
    simp [run, hv, hmiss]

/-- Witness for C8 at a PASS report, a resolvable allowed command and a
sanitized environment: the command does not run, the dry-run outcome is
success, and the sanitized environment equals the real-launch one. -/
theorem c8_dry_run_witness :
    (run (Guardrails.decide (passReport ⟨5, 9⟩).status false) (.resolved "python3")
        (fun p s => p == s) [] true (.completed 7)).commandRan = false ∧
    (run (Guardrails.decide (passReport ⟨5, 9⟩).status false) (.resolved "python3")
        (fun p s => p == s) [] true (.completed 7)).dryRun = true ∧
    (run (Guardrails.decide (passReport ⟨5, 9⟩).status false) (.resolved "python3")
        (fun p s => p == s) [] true (.completed 7)).exitCode = 0 ∧
    (guardInvocation (passReport ⟨5, 9⟩) false (.resolved "python3") (fun p s => p == s) []
        true [("KEEP_ME", "1"), ("DROP_ME", "3")] ["KEEP_ME"] [] true (.completed 7)
        "Hello" "website" "post").2.1
      = (guardInvocation (passReport ⟨5, 9⟩) false (.resolved "python3") (fun p s => p == s) []
        true [("KEEP_ME", "1"), ("DROP_ME", "3")] ["KEEP_ME"] [] false (.completed 7)
        "Hello" "website" "post").2.1 := by
  have h := c8_dry_run (passReport ⟨5, 9⟩) false (.resolved "python3") (fun p s => p == s) []
    true [("KEEP_ME", "1"), ("DROP_ME", "3")] ["KEEP_ME"] [] (.completed 7)
    "Hello" "website" "post" _ (by decide) rfl
  exact ⟨h.1, h.2.1, h.2.2.2.2.2.2.2.2 "python3" rfl (by decide), h.2.2.2.1⟩

/-- C9: a wrapped command that is launched and completes within its
timeout propagates its own exit code verbatim as the outcome exit code,
for every exit code value. -/
theorem c9_exit_code_propagation (v : ExecutionVerdict) (name : String)
    (rmatch : String → String → Bool) (entries : List String) (c : Nat)
    (hv : v.allowed = true) (ha : is_allowed rmatch name entries = true) :
    run v (.resolved name) rmatch entries false (.completed c)
      = ⟨c, true, false, false, ""⟩ := by
  simp [run, hv, ha]

/-- Witness for C9 at the non-zero exit code of the regression tests. -/
theorem c9_exit_code_propagation_witness :
    run ⟨true, false, ""⟩ (.resolved "python3") (fun p s => p == s) [] false (.completed 5)
      = ⟨5, true, false, false, ""⟩ :=
  c9_exit_code_propagation ⟨true, false, ""⟩ "python3" (fun p s => p == s) [] 5 rfl (by decide)

/-- C10: the refusal verdict for REVIEW under strict mode is identical to
the BLOCK verdict, so its reason is character for character the fixed
blocked message, and the same verdict results whether strict mode comes
from the explicit flag or from the environment alias value. -/
theorem c10_strict_review_reason :
    Guardrails.decide .REVIEW (resolveStrict true none) = Guardrails.decide .BLOCK false ∧
    Guardrails.decide .REVIEW (resolveStrict false (some "true")) = Guardrails.decide .BLOCK false ∧
    (Guardrails.decide .REVIEW (resolveStrict true none)).reason
      = "Blocked by enterprise legal guardrails" ∧
    (Guardrails.decide .REVIEW (resolveStrict false (some "true"))).reason
      = (Guardrails.decide .REVIEW (resolveStrict true none)).reason := by
  decide

end Guardrails
